import Mathlib

/-!
Verification development for the chat-ia repository.

The definitions below are a shallow embedding of the non-presentational
logic of the repository:

* `src/hooks/useChat.js` — message log, id assignment, `sendMessage`;
* `src/hooks/useConversations.js` — conversation registry, titles,
  deletion/selection rules, localStorage load/save effects;
* `ChatInterface` (`src/components/ChatInterface.js`, provided unnamed) —
  the URL-sync effect and `handleSendMessage` composition.

JavaScript strings are modelled as Lean `String` (`.length` is the
character count; the sources only ever manipulate plain text, so the
UTF-16 distinction does not arise in any claim).  JavaScript truthiness
of strings is modelled by comparison with `""`, and `null`/`undefined`
by `Option`.  `localStorage` holds `JSON.stringify`ed values; the
stringify/parse pair is modelled at the JSON-value level: storage maps
keys to a `Json` tree, `JSON.stringify` is an encoder into `Json` and
`JSON.parse` plus the subsequent field access is a decoder out of it.
React `useState` state is passed explicitly; a hook closure sees the
render-time snapshot of its state (exactly as `useCallback` closures do
in the source), while functional `setX(prev => ...)` updates are applied
to the evolving state.
-/

/-! ## JavaScript string primitives -/

/-- The whitespace characters matched by the regex `\s` (ASCII part) and
trimmed by `String.prototype.trim`; the sources never produce the
non-ASCII whitespace code points. -/
def isJsWs (c : Char) : Bool :=
  c = ' ' || c = '\t' || c = '\n' || c = '\r' || c = '\x0b' || c = '\x0c'

/-- `s.substring(0, n)` — the first `n` characters. -/
def strTake (s : String) (n : Nat) : String :=
  ⟨s.data.take n⟩

/-- JS `s.length`. -/
def jsLength (s : String) : Nat :=
  s.data.length

/-- Character-list form of `String.prototype.trim`: drop leading and
trailing whitespace. -/
def trimChars (l : List Char) : List Char :=
  (((l.dropWhile isJsWs).reverse).dropWhile isJsWs).reverse

/-- `s.trim()`. -/
def jsTrim (s : String) : String :=
  ⟨trimChars s.data⟩

/-- Character-list form of `s.replace(/\s+/g, ' ')`: every maximal run of
whitespace becomes a single space. -/
def collapseChars : List Char → List Char
  | [] => []
  | [c] => [if isJsWs c then ' ' else c]
  | c :: d :: rest =>
      if isJsWs c && isJsWs d then collapseChars (d :: rest)
      else (if isJsWs c then ' ' else c) :: collapseChars (d :: rest)

/-- `s.replace(/\s+/g, ' ')`. -/
def jsCollapseWs (s : String) : String :=
  ⟨collapseChars s.data⟩

/-! ## Message model (`useChat.js` and `types/Message.js`) -/

/-- Modelled from the spec: `src/types/Message.js` is not among the
sources; §3 of the design gives the message shape
`{ id, text, sender, createdAt }`, with `sender` one of the literals
`'user'`/`'ai'` used throughout the hooks.  The creation time is passed
in explicitly as `now`. -/
structure Message where
  id : Nat
  text : String
  sender : String
  createdAt : String
deriving Repr, DecidableEq

/-- Modelled from the spec: the `createMessage(id, text, sender)` factory
imported from `../types/Message`; it packages its arguments plus the
current time into a message record. -/
def createMessage (id : Nat) (text sender now : String) : Message :=
  ⟨id, text, sender, now⟩

/-- `useChat.js` line 22: the default initial message from the AI. -/
def defaultInitialMessages (now : String) : List Message :=
  [createMessage 1 "Hello! I'm your AI assistant. How can I help you today?" "ai" now]

/-- `useChat.js` `getNextMessageId`:
`messages.length > 0 ? Math.max(...messages.map(m => m.id)) + 1 : 1`. -/
def getNextMessageId (messages : List Message) : Nat :=
  if messages.length > 0 then (messages.map (·.id)).foldl Nat.max 0 + 1 else 1

/-- `useChat.js` `addMessage`: create a message with the next id and
append it; returns the created message together with the new log. -/
def addMessage (messages : List Message) (text sender now : String) :
    Message × List Message :=
  let newMessage := createMessage (getNextMessageId messages) text sender now
  (newMessage, messages ++ [newMessage])

/-- The chat state owned by `useChat`: `messages`, `isTyping`, `error`. -/
structure ChatState where
  messages : List Message
  isTyping : Bool
  error : Option String
deriving Repr, DecidableEq

/-- The fixed text of the synthetic assistant message appended on the
error path of `sendMessage`. -/
def sendErrorReplyText : String :=
  "Sorry, I encountered an error processing your message. Please try again."

/-- Outcome of one `sendMessage` call: the final chat state and the
`onMessageSent(conversationId, lastMessage, messageCount)` notification,
if the callback guard fired. -/
structure SendResult where
  state : ChatState
  notify : Option (String × String × Nat)
deriving Repr, DecidableEq

/-- `useChat.js` `sendMessage`.  `st` is the render-time snapshot the
closure captured, `conversationId` the `options.conversationId` of that
render, and `responder` the settled outcome of
`chatService.processMessage` (`.ok reply` / `.error message`).
Mirrors the source order: clear `error`; validate (an empty or
blank-trimming text throws, and the `catch` below handles that throw);
append the trimmed user message; set `isTyping`; await the responder,
whose reply id is `getNextMessageId()` evaluated against the snapshot;
on success append the reply and fire `onMessageSent` when the captured
`conversationId` is truthy; on any caught error set the error flag and
append the fixed-text assistant message with a snapshot-derived id; in
all cases finally clear `isTyping`. -/
def sendMessage (st : ChatState) (conversationId : Option String)
    (messageText : String) (responder : Except String String) (now : String) :
    SendResult :=
  if messageText = "" || jsTrim messageText = "" then
    { state :=
        { st with
          messages := st.messages ++
            [createMessage (getNextMessageId st.messages) sendErrorReplyText "ai" now]
          isTyping := false
          error := some "Message text is required" }
      notify := none }
  else
    let userMessage := createMessage (getNextMessageId st.messages)
      (jsTrim messageText) "user" now
    let msgs1 := st.messages ++ [userMessage]
    match responder with
    | Except.ok replyText =>
        let aiResponse := createMessage (getNextMessageId st.messages) replyText "ai" now
        { state :=
            { st with messages := msgs1 ++ [aiResponse], isTyping := false, error := none }
          notify :=
            match conversationId with
            | some cid =>
                if cid = "" then none
                else some (cid, replyText, st.messages.length + 2)
            | none => none }
    | Except.error em =>
        { state :=
            { st with
              messages := msgs1 ++
                [createMessage (getNextMessageId st.messages) sendErrorReplyText "ai" now]
              isTyping := false
              error := some (if em = "" then "Failed to send message" else em) }
          notify := none }

/-- A sequence of `addMessage` calls (text, sender, time) on a log. -/
def appendRun (messages : List Message) : List (String × String × String) → List Message
  | [] => messages
  | (t, sender, now) :: rest => appendRun (addMessage messages t sender now).2 rest

/-! ## Conversation registry (`useConversations.js`) -/

/-- A conversation summary, with the exact fields the source builds in
`createNewConversation`. -/
structure Conversation where
  id : String
  title : String
  lastMessage : String
  createdAt : String
  updatedAt : String
  messageCount : Nat
deriving Repr, DecidableEq

/-- The registry state owned by `useConversations`. -/
structure ConvState where
  conversations : List Conversation
  currentConversationId : Option String
deriving Repr, DecidableEq

/-- The `useState` initial registry state: no conversations, no
selection. -/
def initConvState : ConvState :=
  ⟨[], none⟩

/-- `useConversations.js` `generateConversationTitle`: guard against a
falsy argument; take the first 50 characters and `trim()`; collapse
whitespace runs; append `"..."` when the raw message exceeded 50
characters; fall back to `'New conversation'` when the result is the
empty string. -/
def generateConversationTitle (firstMessage : String) : String :=
  if firstMessage = "" then "New conversation"
  else
    let title := jsCollapseWs (jsTrim (strTake firstMessage 50))
    let title := if 50 < jsLength firstMessage then title ++ "..." else title
    if title = "" then "New conversation" else title

/-- `useConversations.js` `createNewConversation`.  The generated id and
the clock reading are passed in (`generateConversationId` mixes
`Date.now()` with randomness).  `firstMessage = null` and
`firstMessage = ""` are both falsy in the source's conditionals. -/
def createNewConversation (s : ConvState) (newId now : String)
    (firstMessage : Option String) : ConvState × String :=
  let fm := firstMessage.getD ""
  let title := if fm = "" then "New conversation" else generateConversationTitle fm
  let newConversation : Conversation :=
    { id := newId
      title := title
      lastMessage := if fm = "" then "Empty conversation" else fm
      createdAt := now
      updatedAt := now
      messageCount := if fm = "" then 0 else 1 }
  ({ conversations := newConversation :: s.conversations
     currentConversationId := some newId }, newId)

/-- `useConversations.js` `selectConversation`. -/
def selectConversation (s : ConvState) (conversationId : Option String) : ConvState :=
  { s with currentConversationId := conversationId }

/-- `useConversations.js` `deleteConversation`: filter the conversation
out; when it was the current one, select the first remaining
conversation, or clear the selection when none remain. -/
def deleteConversation (s : ConvState) (conversationId : String) : ConvState :=
  let newConversations := s.conversations.filter (fun conv => conv.id != conversationId)
  if s.currentConversationId = some conversationId then
    let remainingConversations :=
      s.conversations.filter (fun conv => conv.id != conversationId)
    { conversations := newConversations
      currentConversationId := remainingConversations.head?.map (·.id) }
  else
    { s with conversations := newConversations }

/-- `useConversations.js` `updateConversation`: map the update over the
list, stamping `updatedAt`. -/
def updateConversation (s : ConvState) (conversationId : String)
    (f : Conversation → Conversation) (now : String) : ConvState :=
  { s with
    conversations := s.conversations.map (fun conv =>
      if conv.id = conversationId then { f conv with updatedAt := now } else conv) }

/-- `useConversations.js` `updateConversationWithMessage`: preview
truncated to 100 characters, count and timestamp refreshed. -/
def updateConversationWithMessage (s : ConvState) (conversationId lastMessage : String)
    (messageCount : Nat) (now : String) : ConvState :=
  updateConversation s conversationId
    (fun conv => { conv with
      lastMessage := strTake lastMessage 100
      messageCount := messageCount }) now

/-- `useConversations.js` `renameConversation`: no-op when the new title
trims to empty, otherwise store the trimmed title. -/
def renameConversation (s : ConvState) (conversationId newTitle : String)
    (now : String) : ConvState :=
  if jsTrim newTitle = "" then s
  else updateConversation s conversationId
    (fun conv => { conv with title := jsTrim newTitle }) now

/-! ## Durable storage (`localStorage` with `JSON.stringify`/`JSON.parse`)

`localStorage` is modelled per key.  A stored record is kept as the JSON
value the source `JSON.stringify`ed; `JSON.parse` plus the subsequent
use of the parsed value is a decoder back into the typed records.  A
`decode` returning `none` corresponds to the `try { JSON.parse } catch`
branches of the source (corrupt data). -/

/-- A JSON value, restricted to the constructors the sources emit. -/
inductive Json where
  | str : String → Json
  | num : Nat → Json
  | arr : List Json → Json
  | obj : List (String × Json) → Json
deriving Repr

/-- Object field lookup. -/
def getField : List (String × Json) → String → Option Json
  | [], _ => none
  | (k, v) :: rest, key => if k = key then some v else getField rest key

/-- Reads a JSON string value. -/
def asStr : Option Json → Option String
  | some (Json.str s) => some s
  | _ => none

/-- Reads a JSON number value. -/
def asNum : Option Json → Option Nat
  | some (Json.num n) => some n
  | _ => none

/-- `JSON.stringify` of one conversation record. -/
def encodeConversation (c : Conversation) : Json :=
  Json.obj [("id", Json.str c.id), ("title", Json.str c.title),
    ("lastMessage", Json.str c.lastMessage), ("createdAt", Json.str c.createdAt),
    ("updatedAt", Json.str c.updatedAt), ("messageCount", Json.num c.messageCount)]

/-- `JSON.parse` result interpreted as one conversation record. -/
def decodeConversation : Json → Option Conversation
  | Json.obj fields =>
      match asStr (getField fields "id"), asStr (getField fields "title"),
        asStr (getField fields "lastMessage"), asStr (getField fields "createdAt"),
        asStr (getField fields "updatedAt"), asNum (getField fields "messageCount") with
      | some i, some t, some lm, some ca, some ua, some mc =>
          some ⟨i, t, lm, ca, ua, mc⟩
      | _, _, _, _, _, _ => none
  | _ => none

/-- Decodes a list of JSON values as conversation records. -/
def decodeConvList : List Json → Option (List Conversation)
  | [] => some []
  | j :: rest =>
      match decodeConversation j, decodeConvList rest with
      | some c, some cs => some (c :: cs)
      | _, _ => none

/-- `JSON.stringify(conversations)`. -/
def encodeConversations (cs : List Conversation) : Json :=
  Json.arr (cs.map encodeConversation)

/-- `JSON.parse` of the `chatia_conversations` record. -/
def decodeConversations : Json → Option (List Conversation)
  | Json.arr l => decodeConvList l
  | _ => none

/-- `JSON.stringify` of one message record. -/
def encodeMessage (m : Message) : Json :=
  Json.obj [("id", Json.num m.id), ("text", Json.str m.text),
    ("sender", Json.str m.sender), ("createdAt", Json.str m.createdAt)]

/-- `JSON.parse` result interpreted as one message record. -/
def decodeMessage : Json → Option Message
  | Json.obj fields =>
      match asNum (getField fields "id"), asStr (getField fields "text"),
        asStr (getField fields "sender"), asStr (getField fields "createdAt") with
      | some i, some t, some s, some ca => some ⟨i, t, s, ca⟩
      | _, _, _, _ => none
  | _ => none

/-- Decodes a list of JSON values as message records. -/
def decodeMsgList : List Json → Option (List Message)
  | [] => some []
  | j :: rest =>
      match decodeMessage j, decodeMsgList rest with
      | some m, some ms => some (m :: ms)
      | _, _ => none

/-- `JSON.stringify(messages)`. -/
def encodeMessages (ms : List Message) : Json :=
  Json.arr (ms.map encodeMessage)

/-- `JSON.parse` of a `chatia_messages_<id>` record. -/
def decodeMessages : Json → Option (List Message)
  | Json.arr l => decodeMsgList l
  | _ => none

/-- The `localStorage` keys the hooks touch: `chatia_conversations`,
`chatia_current_conversation`, and `chatia_messages_<conversationId>`
(one record per conversation). -/
structure Storage where
  chatia_conversations : Option Json
  chatia_current_conversation : Option String
  messagesFor : String → Option Json

/-- `useConversations.js` load effect (runs once on mount): parse the
stored conversation list if present (a parse failure only logs and
leaves the state alone); then, if a current-conversation id is stored
(non-empty — `if (savedCurrentId)` is a truthiness test), select it
unconditionally. -/
def loadConversationsEffect (st : Storage) (s : ConvState) : ConvState :=
  let s1 :=
    match st.chatia_conversations with
    | some j =>
        match decodeConversations j with
        | some parsed => { s with conversations := parsed }
        | none => s
    | none => s
  match st.chatia_current_conversation with
  | some savedCurrentId =>
      if savedCurrentId = "" then s1
      else { s1 with currentConversationId := some savedCurrentId }
  | none => s1

/-- `useConversations.js` save effect for the conversation list: writes
only when `conversations.length > 0`. -/
def saveConversationsEffect (s : ConvState) (st : Storage) : Storage :=
  if s.conversations.length > 0 then
    { st with chatia_conversations := some (encodeConversations s.conversations) }
  else st

/-- `useConversations.js` save effect for the current id: writes only
when `currentConversationId` is truthy. -/
def saveCurrentIdEffect (s : ConvState) (st : Storage) : Storage :=
  match s.currentConversationId with
  | some cid =>
      if cid = "" then st
      else { st with chatia_current_conversation := some cid }
  | none => st

/-- `useChat.js` load effect for a (truthy) conversation id: parse the
stored log if present; on a parse failure, or when nothing is stored,
fall back to the default initial messages. -/
def loadMessagesEffect (st : Storage) (conversationId now : String) : List Message :=
  match st.messagesFor conversationId with
  | some j =>
      match decodeMessages j with
      | some parsed => parsed
      | none => defaultInitialMessages now
  | none => defaultInitialMessages now

/-- `useChat.js` save effect: writes the log under the conversation's
key only when a conversation is selected and the log is non-empty. -/
def saveMessagesEffect (conversationId : Option String) (messages : List Message)
    (st : Storage) : Storage :=
  match conversationId with
  | some cid =>
      if cid = "" then st
      else if messages.length > 0 then
        { st with messagesFor := fun k =>
            if k = cid then some (encodeMessages messages) else st.messagesFor k }
      else st
  | none => st

/-! ## ChatInterface: URL sync and message sending -/

/-- The value `ChatInterface` destructures as `conversationsLoaded` from
`useConversations()`.  The hook returns no such field, so the
destructured value is `undefined`, which is falsy. -/
def conversationsLoadedProvided : Bool := false

/-- The `ChatInterface` URL-sync effect.  `urlId` is the `:conversationId`
route param (`none` at the root path).  Returns the registry selection
after the effect and whether `navigate('/')` was issued.  Mirrors the
source: when the param is truthy, differs from the current selection and
`conversationsLoaded` holds, select it if it names an existing
conversation and otherwise redirect to the root; when the param is
absent but a conversation is selected, clear the selection. -/
def urlSyncStep (urlId : Option String) (conversations : List Conversation)
    (currentConversationId : Option String) (conversationsLoaded : Bool) :
    Option String × Bool :=
  match urlId with
  | some uid =>
      if uid ≠ "" then
        if some uid ≠ currentConversationId ∧ conversationsLoaded then
          if conversations.any (fun c => c.id == uid) then (some uid, false)
          else (currentConversationId, true)
        else (currentConversationId, false)
      else
        match currentConversationId with
        | some cur => if cur = "" then (currentConversationId, false) else (none, false)
        | none => (currentConversationId, false)
  | none =>
      match currentConversationId with
      | some cur => if cur = "" then (currentConversationId, false) else (none, false)
      | none => (currentConversationId, false)

/-- The URL-sync effect as deployed: the `conversationsLoaded` flag the
component actually receives is `undefined`. -/
def urlSyncStepDeployed (urlId : Option String) (conversations : List Conversation)
    (currentConversationId : Option String) : Option String × Bool :=
  urlSyncStep urlId conversations currentConversationId conversationsLoadedProvided

/-- The composed application state handled by `ChatInterface`: the
registry, the chat state of the `useChat` instance, the route (`none` =
root path, `some id` = `/c/id`), and the durable storage the hook
effects read and write. -/
structure AppState where
  conv : ConvState
  chat : ChatState
  url : Option String
  storage : Storage

/-- `ChatInterface.handleSendMessage`, composed with the closures and
effects it triggers, evaluated to the settled state after the responder
resolves.

When a conversation is already selected, the `useChat` `conversationId`
option never changes during the send, so no effect refires in between:
the closure-level `sendMessage` result is the settled chat state, and
the save effect persists its final log.

When no conversation is selected (`SendFirstMessage`), the handler
first creates one — flipping `currentConversationId`, and hence the
`useChat` `conversationId` option, from null to `newId` — and navigates
to it.  `sendMessage` starts against the render snapshot (captured
`conversationId` still null): it appends the user message (valid case)
or runs its catch branch (blank case), and React then commits.  At that
commit the `useChat` load effect refires (its dependency
`conversationId` changed): nothing is stored yet under the new id —
the save effect, declared after it, runs only after the load effect
read — so it resets the log to the stored-or-default messages for
`newId` (`resetNow` is the clock of that later render), discarding the
just-appended message; the save effect persists first the pre-reset
committed log, then the reset log.  Only afterwards does the responder
settle, and the continuation appends its message — with the id computed
from the original pre-send snapshot — to the reset log, which is
persisted last.  The `onMessageSent` callback never fires here because
the captured `conversationId` was null. -/
def handleSendMessage (app : AppState) (messageText : String)
    (newId now resetNow : String) (responder : Except String String) : AppState :=
  let cid0 := app.conv.currentConversationId
  match cid0 with
  | some _ =>
      let r := sendMessage app.chat cid0 messageText responder now
      let conv2 :=
        match r.notify with
        | some (ncid, lastMessage, messageCount) =>
            updateConversationWithMessage app.conv ncid lastMessage messageCount now
        | none => app.conv
      { conv := conv2, chat := r.state, url := app.url
        storage := saveMessagesEffect cid0 r.state.messages app.storage }
  | none =>
      let created := createNewConversation app.conv newId now (some messageText)
      let conv1 := created.1
      let snapshot := app.chat.messages
      let resetLog := loadMessagesEffect app.storage newId resetNow
      if messageText = "" || jsTrim messageText = "" then
        let committed := snapshot ++
          [createMessage (getNextMessageId snapshot) sendErrorReplyText "ai" now]
        { conv := conv1
          chat := { messages := resetLog, isTyping := false
                    error := some "Message text is required" }
          url := some newId
          storage := saveMessagesEffect (some newId) resetLog
            (saveMessagesEffect (some newId) committed app.storage) }
      else
        let userMessage := createMessage (getNextMessageId snapshot)
          (jsTrim messageText) "user" now
        let committed := snapshot ++ [userMessage]
        let aiId := getNextMessageId snapshot
        let stAfterResets := saveMessagesEffect (some newId) resetLog
          (saveMessagesEffect (some newId) committed app.storage)
        match responder with
        | Except.ok replyText =>
            let finalLog := resetLog ++ [createMessage aiId replyText "ai" now]
            { conv := conv1
              chat := { messages := finalLog, isTyping := false, error := none }
              url := some newId
              storage := saveMessagesEffect (some newId) finalLog stAfterResets }
        | Except.error em =>
            let finalLog := resetLog ++
              [createMessage aiId sendErrorReplyText "ai" now]
            { conv := conv1
              chat := { messages := finalLog, isTyping := false
                        error := some (if em = "" then "Failed to send message" else em) }
              url := some newId
              storage := saveMessagesEffect (some newId) finalLog stAfterResets }

/-! ## Helper lemmas -/

theorem le_foldl_max (l : List Nat) (b : Nat) : b ≤ l.foldl Nat.max b := by
  induction l generalizing b with
  | nil => exact Nat.le_refl b
  | cons x xs ih =>
    rw [List.foldl_cons]
    exact Nat.le_trans (Nat.le_max_left b x) (ih (Nat.max b x))

theorem mem_le_foldl_max (l : List Nat) (b a : Nat) (h : a ∈ l) :
    a ≤ l.foldl Nat.max b := by
  induction l generalizing b with
  | nil => cases h
  | cons x xs ih =>
    rw [List.foldl_cons]
    rcases List.mem_cons.mp h with rfl | hx
    · exact Nat.le_trans (Nat.le_max_right b a) (le_foldl_max xs _)
    · exact ih _ hx

/-- Every message already in the log has an id strictly below the next
generated id. -/
theorem id_lt_getNextMessageId {m : Message} {msgs : List Message} (h : m ∈ msgs) :
    m.id < getNextMessageId msgs := by
  have hne : msgs.length > 0 := List.length_pos.mpr (List.ne_nil_of_mem h)
  unfold getNextMessageId
  rw [if_pos hne]
  exact Nat.lt_succ_of_le
    (mem_le_foldl_max _ 0 _ (List.mem_map_of_mem (·.id) h))

/-- Appending messages preserves the strict order of the id sequence. -/
theorem appendRun_pairwise (inputs : List (String × String × String)) :
    ∀ msgs : List Message, List.Pairwise (· < ·) (msgs.map (·.id)) →
      List.Pairwise (· < ·) ((appendRun msgs inputs).map (·.id)) := by
  induction inputs with
  | nil => intro msgs h; exact h
  | cons p rest ih =>
    intro msgs h
    obtain ⟨t, sender, now⟩ := p
    show List.Pairwise (· < ·) ((appendRun (addMessage msgs t sender now).2 rest).map (·.id))
    apply ih
    unfold addMessage
    rw [List.map_append, List.pairwise_append]
    refine ⟨h, List.pairwise_singleton _ _, ?_⟩
    intro a ha b hb
    rcases List.mem_map.mp ha with ⟨m, hm, rfl⟩
    rcases List.mem_map.mp hb with ⟨m', hm', rfl⟩
    rcases List.mem_singleton.mp hm' with rfl
    exact id_lt_getNextMessageId hm

theorem decodeConversation_encodeConversation (c : Conversation) :
    decodeConversation (encodeConversation c) = some c := rfl

theorem decodeConvList_map_encode (cs : List Conversation) :
    decodeConvList (cs.map encodeConversation) = some cs := by
  induction cs with
  | nil => rfl
  | cons c rest ih =>
    simp [decodeConvList, decodeConversation_encodeConversation, ih]

theorem decodeConversations_encodeConversations (cs : List Conversation) :
    decodeConversations (encodeConversations cs) = some cs := by
  show decodeConvList (cs.map encodeConversation) = some cs
  exact decodeConvList_map_encode cs

theorem decodeMessage_encodeMessage (m : Message) :
    decodeMessage (encodeMessage m) = some m := rfl

theorem decodeMsgList_map_encode (ms : List Message) :
    decodeMsgList (ms.map encodeMessage) = some ms := by
  induction ms with
  | nil => rfl
  | cons m rest ih =>
    simp [decodeMsgList, decodeMessage_encodeMessage, ih]

theorem decodeMessages_encodeMessages (ms : List Message) :
    decodeMessages (encodeMessages ms) = some ms := by
  show decodeMsgList (ms.map encodeMessage) = some ms
  exact decodeMsgList_map_encode ms

/-! ## Concrete fixtures used by witnesses and counterexamples -/

/-- A reloaded log with an id gap: ids `[1, 3]`. -/
def gapLog : List Message :=
  [⟨1, "first", "user", "t"⟩, ⟨3, "third", "ai", "t"⟩]

def convA : Conversation := ⟨"A", "Alpha", "hello", "t1", "t2", 3⟩

def convB : Conversation := ⟨"B", "Beta", "hi", "t1", "t2", 1⟩

def convC : Conversation := ⟨"C", "Gamma", "hey", "t1", "t2", 0⟩

/-! ## Claim theorems -/

/-- C2: on every log, `addMessage` assigns id `(max existing id) + 1`
(`1` on an empty log); hence over any sequence of appends — also one
starting from a log reloaded with a gap — the id sequence stays strictly
increasing with no duplicates, and the gapped log with ids `[1, 3]`
yields `4` on the next append. -/
theorem C2_append_ids_strictly_increasing (msgs : List Message)
    (inputs : List (String × String × String)) (t sender now : String)
    (h : List.Pairwise (· < ·) (msgs.map (·.id))) :
    ((addMessage msgs t sender now).1.id
        = if msgs = [] then 1 else (msgs.map (·.id)).foldl Nat.max 0 + 1)
    ∧ List.Pairwise (· < ·) ((appendRun msgs inputs).map (·.id))
    ∧ getNextMessageId gapLog = 4 := by
  refine ⟨?_, appendRun_pairwise inputs msgs h, by decide⟩
  show getNextMessageId msgs = _
  unfold getNextMessageId
  cases msgs with
  | nil => rfl
  | cons m rest => simp

/-- C2 witness: the gapped log `[1, 3]` is strictly increasing; appending
to it keeps the ids strictly increasing, the append on the gapped log is
assigned id `max + 1`, and the next id after `[1, 3]` is `4`. -/
theorem C2_witness :
    List.Pairwise (· < ·) (gapLog.map (·.id))
    ∧ (((addMessage gapLog "hi" "user" "t").1.id
          = if gapLog = [] then 1 else (gapLog.map (·.id)).foldl Nat.max 0 + 1)
       ∧ List.Pairwise (· < ·) ((appendRun gapLog [("hi", "user", "t")]).map (·.id))
       ∧ getNextMessageId gapLog = 4) :=
  ⟨by decide,
   C2_append_ids_strictly_increasing gapLog [("hi", "user", "t")] "hi" "user" "t"
     (by decide)⟩

/-- C5: deleting the currently selected conversation removes exactly it
from the list (nothing is auto-created) and selects the first remaining
conversation in sequence order, or `none` when no conversation
remains. -/
theorem C5_delete_current_selects_first (convs : List Conversation)
    (cur : Option String) (cid : String) (h : cur = some cid) :
    (deleteConversation ⟨convs, cur⟩ cid).conversations
        = convs.filter (fun conv => conv.id != cid)
    ∧ (deleteConversation ⟨convs, cur⟩ cid).currentConversationId
        = (convs.filter (fun conv => conv.id != cid)).head?.map (·.id) := by
  subst h
  unfold deleteConversation
  simp

/-- C5 witness: with conversations `[A, B, C]` and `current = B`,
deleting `B` leaves `[A, C]` and selects `A`; with `[B]` and
`current = B`, deleting `B` clears the selection. -/
theorem C5_witness :
    ((some "B" : Option String) = some "B")
    ∧ (deleteConversation ⟨[convA, convB, convC], some "B"⟩ "B").conversations
        = [convA, convC]
    ∧ (deleteConversation ⟨[convA, convB, convC], some "B"⟩ "B").currentConversationId
        = some "A"
    ∧ (deleteConversation ⟨[convB], some "B"⟩ "B").currentConversationId = none := by
  refine ⟨rfl, ?_, ?_, ?_⟩
  · rw [(C5_delete_current_selects_first [convA, convB, convC] (some "B") "B" rfl).1]
    decide
  · rw [(C5_delete_current_selects_first [convA, convB, convC] (some "B") "B" rfl).2]
    decide
  · rw [(C5_delete_current_selects_first [convB] (some "B") "B" rfl).2]
    decide

/-- Storage for the C4 counterexample: a persisted current-selection id
`"Z"` with no persisted conversation list. -/
def c4Storage : Storage := ⟨none, some "Z", fun _ => none⟩

/-- C4 counterexample: booting with a stored selection id `"Z"` and a
loaded sequence containing no conversation at all leaves the session in
`Selected("Z")`, not `NoSelection` — the claimed existence check does
not happen. -/
theorem C4_counterexample :
    (loadConversationsEffect c4Storage initConvState).conversations = []
    ∧ (loadConversationsEffect c4Storage initConvState).currentConversationId = some "Z"
    ∧ ¬ ((loadConversationsEffect c4Storage initConvState).currentConversationId = none) := by
  refine ⟨rfl, rfl, ?_⟩
  intro hcontra
  rw [show (loadConversationsEffect c4Storage initConvState).currentConversationId
        = some "Z" from rfl] at hcontra
  cases hcontra

/-- What one boot load computes, field by field: the selection is the
stored id whenever a non-empty one is stored, and the conversation list
is the decoded stored sequence (empty when absent or undecodable). -/
theorem loadConversationsEffect_spec (st : Storage) :
    (loadConversationsEffect st initConvState).currentConversationId
      = (match st.chatia_current_conversation with
         | some cid => if cid = "" then none else some cid
         | none => none)
    ∧ (loadConversationsEffect st initConvState).conversations
      = (match st.chatia_conversations with
         | some j => (decodeConversations j).getD []
         | none => []) := by
  unfold loadConversationsEffect
  rcases hc : st.chatia_conversations with _ | j <;>
    rcases hi : st.chatia_current_conversation with _ | cid
  · exact ⟨rfl, rfl⟩
  · by_cases hcid : cid = "" <;> simp [hcid, initConvState]
  · rcases hd : decodeConversations j with _ | parsed <;> simp [hd, initConvState]
  · rcases hd : decodeConversations j with _ | parsed <;>
      by_cases hcid : cid = "" <;> simp [hd, hcid, initConvState]

/-- C4 amended: the boot load sets the selection to the stored id
unconditionally whenever a non-empty id is stored, whether or not a
conversation with that id exists in the loaded sequence; when no id is
stored the selection stays `none`.  The conversation list is the decoded
stored sequence, or stays empty when nothing decodes. -/
theorem C4_amended (st : Storage) :
    (loadConversationsEffect st initConvState).currentConversationId
      = (match st.chatia_current_conversation with
         | some cid => if cid = "" then none else some cid
         | none => none)
    ∧ (loadConversationsEffect st initConvState).conversations
      = (match st.chatia_conversations with
         | some j => (decodeConversations j).getD []
         | none => []) :=
  loadConversationsEffect_spec st

/-- C6: evaluating the URL-sync effect as deployed.  With URL id `"Z"`,
conversations `[A]` and no selection, the deployed effect neither
redirects nor changes the selection, because the `conversationsLoaded`
guard it destructures is `undefined`; with the guard `true` the same
input would redirect to the root as the effect's comments describe.
Moreover as deployed the effect can never issue a redirect at all. -/
theorem C6_url_sync_guard_dead :
    urlSyncStepDeployed (some "Z") [convA] none = (none, false)
    ∧ urlSyncStep (some "Z") [convA] none true = (none, true)
    ∧ (∀ (urlId : Option String) (convs : List Conversation) (cur : Option String),
        (urlSyncStepDeployed urlId convs cur).2 = false) := by
  refine ⟨by decide, by decide, ?_⟩
  intro urlId convs cur
  unfold urlSyncStepDeployed urlSyncStep conversationsLoadedProvided
  rcases urlId with _ | uid
  · rcases cur with _ | c
    · rfl
    · by_cases hc : c = "" <;> simp [hc]
  · by_cases hu : uid = ""
    · rcases cur with _ | c
      · simp [hu]
      · by_cases hc : c = "" <;> simp [hu, hc]
    · simp [hu]

/-- C9: persisting then reloading is the identity whenever the save
effects actually write (the sources skip the write for an empty list and
for a missing conversation id; C10 covers that frame behaviour).  Both
record kinds survive field-for-field, via the JSON encode/decode
round-trip. -/
theorem C9_persist_reload_roundtrip (cs : List Conversation) (ms : List Message)
    (cid now : String) (sel : Option String) (st : Storage)
    (hcs : cs ≠ []) (hms : ms ≠ []) (hcid : cid ≠ "") :
    (loadConversationsEffect (saveConversationsEffect ⟨cs, sel⟩ st) initConvState).conversations
        = cs
    ∧ loadMessagesEffect (saveMessagesEffect (some cid) ms st) cid now = ms := by
  constructor
  · have hlen : (0 : Nat) < cs.length := List.length_pos.mpr hcs
    have hsave : (saveConversationsEffect ⟨cs, sel⟩ st).chatia_conversations
        = some (encodeConversations cs) := by
      unfold saveConversationsEffect
      rw [if_pos hlen]
    rw [(loadConversationsEffect_spec (saveConversationsEffect ⟨cs, sel⟩ st)).2, hsave]
    simp [decodeConversations_encodeConversations]
  · have hlen : (0 : Nat) < ms.length := List.length_pos.mpr hms
    simp [saveMessagesEffect, loadMessagesEffect, hcid, hlen,
      decodeMessages_encodeMessages]

/-- C9 witness: a concrete non-empty conversation sequence and message
log round-trip through storage unchanged. -/
theorem C9_witness :
    (([convA, convB] : List Conversation) ≠ [] ∧ (gapLog : List Message) ≠ []
      ∧ ("A" : String) ≠ "")
    ∧ ((loadConversationsEffect
          (saveConversationsEffect ⟨[convA, convB], none⟩ ⟨none, none, fun _ => none⟩)
          initConvState).conversations = [convA, convB]
       ∧ loadMessagesEffect
          (saveMessagesEffect (some "A") gapLog ⟨none, none, fun _ => none⟩) "A" "t9"
          = gapLog) :=
  ⟨⟨by decide, by decide, by decide⟩,
   C9_persist_reload_roundtrip [convA, convB] gapLog "A" "t9" none
     ⟨none, none, fun _ => none⟩ (by decide) (by decide) (by decide)⟩

/-- C10: when the in-memory conversation list is empty and the selection
is null, both persistence effects skip their writes, leaving every
stored record untouched; consequently a storage still holding an earlier
non-empty sequence and selection id yields exactly those again on the
next boot. -/
theorem C10_skip_write_preserves_storage (st : Storage) (s : ConvState)
    (h1 : s.conversations = []) (h2 : s.currentConversationId = none) :
    saveCurrentIdEffect s (saveConversationsEffect s st) = st
    ∧ (∀ (cs0 : List Conversation) (cid0 : String),
        st.chatia_conversations = some (encodeConversations cs0) →
        st.chatia_current_conversation = some cid0 → cid0 ≠ "" →
        loadConversationsEffect
            (saveCurrentIdEffect s (saveConversationsEffect s st)) initConvState
          = ⟨cs0, some cid0⟩) := by
  have hskip : saveCurrentIdEffect s (saveConversationsEffect s st) = st := by
    unfold saveConversationsEffect saveCurrentIdEffect
    rw [h1, h2]
    rfl
  refine ⟨hskip, ?_⟩
  intro cs0 cid0 hconvs hcur hne
  rw [hskip]
  have hboot := loadConversationsEffect_spec st
  have hsel : (loadConversationsEffect st initConvState).currentConversationId
      = some cid0 := by
    rw [hboot.1, hcur]
    simp [hne]
  have hlist : (loadConversationsEffect st initConvState).conversations = cs0 := by
    rw [hboot.2, hconvs]
    simp [decodeConversations_encodeConversations]
  cases hload : loadConversationsEffect st initConvState
  rw [hload] at hsel hlist
  simp at hsel hlist
  rw [hsel, hlist]

/-- Storage for the C10 witness: previously persisted records for `[A]`
with selection `"A"`. -/
def c10Storage : Storage :=
  ⟨some (encodeConversations [convA]), some "A", fun _ => none⟩

/-- C10 witness: after the skip, the previously stored non-empty records
are restored on the next boot. -/
theorem C10_witness :
    ((initConvState.conversations = []) ∧ (initConvState.currentConversationId = none))
    ∧ loadConversationsEffect
        (saveCurrentIdEffect initConvState (saveConversationsEffect initConvState c10Storage))
        initConvState
      = ⟨[convA], some "A"⟩ :=
  ⟨⟨rfl, rfl⟩,
   (C10_skip_write_preserves_storage c10Storage initConvState rfl rfl).2
     [convA] "A" rfl rfl (by decide)⟩

/-- The render-time chat snapshot used in the C1 and C3 scenarios: the
default greeting log, not typing, no error. -/
def chatStart : ChatState := ⟨defaultInitialMessages "t0", false, none⟩

/-- C1 counterexample: sending the whitespace-only message `"   "` is not
a silent no-op — the thrown validation error is caught by the same
`catch` as responder failures, so the log grows by a synthetic assistant
message and the user-visible error flag is set. -/
theorem C1_counterexample :
    chatStart.messages.length = 1 ∧ chatStart.error = none
    ∧ (sendMessage chatStart none "   " (Except.ok "reply") "t1").state.messages.length = 2
    ∧ (sendMessage chatStart none "   " (Except.ok "reply") "t1").state.error
        = some "Message text is required"
    ∧ ¬ ((sendMessage chatStart none "   " (Except.ok "reply") "t1").state = chatStart) := by
  decide

/-- C1 amended: an empty or whitespace-only message never appends a user
message and the responder outcome is irrelevant (it is never consulted),
but the call is not state-preserving: the error flag becomes
`"Message text is required"`, a fixed-text assistant message is appended
to the log, the typing flag ends cleared, and no registry notification
fires. -/
theorem C1_blank_message_rejected (st : ChatState) (cid : Option String)
    (s now : String) (r : Except String String) (h : jsTrim s = "") :
    (sendMessage st cid s r now).state.messages
        = st.messages
          ++ [createMessage (getNextMessageId st.messages) sendErrorReplyText "ai" now]
    ∧ (sendMessage st cid s r now).state.error = some "Message text is required"
    ∧ (sendMessage st cid s r now).state.isTyping = false
    ∧ (sendMessage st cid s r now).notify = none
    ∧ (∀ r' : Except String String, sendMessage st cid s r now = sendMessage st cid s r' now) := by
  have hcond : (s = "" || jsTrim s = "") = true := by
    simp [h]
  refine ⟨?_, ?_, ?_, ?_, ?_⟩ <;>
    simp [sendMessage, hcond]

/-- C1 witness: the amended behaviour at the whitespace-only input `"   "`. -/
theorem C1_witness :
    (jsTrim "   " = "")
    ∧ ((sendMessage chatStart none "   " (Except.ok "reply") "t1").state.messages
          = chatStart.messages
            ++ [createMessage (getNextMessageId chatStart.messages) sendErrorReplyText "ai" "t1"]
       ∧ (sendMessage chatStart none "   " (Except.ok "reply") "t1").state.error
          = some "Message text is required"
       ∧ (sendMessage chatStart none "   " (Except.ok "reply") "t1").state.isTyping = false
       ∧ (sendMessage chatStart none "   " (Except.ok "reply") "t1").notify = none
       ∧ (∀ r' : Except String String,
            sendMessage chatStart none "   " (Except.ok "reply") "t1"
              = sendMessage chatStart none "   " r' "t1")) :=
  ⟨by decide,
   C1_blank_message_rejected chatStart none "   " "t1" (Except.ok "reply") (by decide)⟩

/-- C8: when the responder fails, `sendMessage` keeps the already
appended user message, appends the fixed-text assistant error message,
surfaces the error flag, fires no registry notification — and the
typing flag ends cleared for every responder outcome, success or
failure. -/
theorem C8_responder_failure_path (st : ChatState) (cid : Option String)
    (s now em : String) (r : Except String String) (h : jsTrim s ≠ "") :
    (sendMessage st cid s (Except.error em) now).state.messages
        = st.messages
          ++ [createMessage (getNextMessageId st.messages) (jsTrim s) "user" now,
              createMessage (getNextMessageId st.messages) sendErrorReplyText "ai" now]
    ∧ (sendMessage st cid s (Except.error em) now).state.error
        = some (if em = "" then "Failed to send message" else em)
    ∧ (sendMessage st cid s (Except.error em) now).notify = none
    ∧ (sendMessage st cid s r now).state.isTyping = false := by
  have hs : s ≠ "" := by
    intro hcontra
    exact h (by rw [hcontra]; rfl)
  have hcond : (s = "" || jsTrim s = "") = false := by
    simp [hs, h]
  refine ⟨?_, ?_, ?_, ?_⟩
  · simp [sendMessage, hcond]
  · simp [sendMessage, hcond]
  · simp [sendMessage, hcond]
  · cases r <;> simp [sendMessage, hcond]

/-- C8 witness: the failure path at a concrete valid message. -/
theorem C8_witness :
    (jsTrim "Hi there" ≠ "")
    ∧ ((sendMessage chatStart (some "A") "Hi there" (Except.error "boom") "t1").state.messages
          = chatStart.messages
            ++ [createMessage (getNextMessageId chatStart.messages) (jsTrim "Hi there") "user" "t1",
                createMessage (getNextMessageId chatStart.messages) sendErrorReplyText "ai" "t1"]
       ∧ (sendMessage chatStart (some "A") "Hi there" (Except.error "boom") "t1").state.error
          = some (if "boom" = "" then "Failed to send message" else "boom")
       ∧ (sendMessage chatStart (some "A") "Hi there" (Except.error "boom") "t1").notify = none
       ∧ (sendMessage chatStart (some "A") "Hi there" (Except.error "boom") "t1").state.isTyping
          = false) :=
  ⟨by decide,
   C8_responder_failure_path chatStart (some "A") "Hi there" "t1" "boom"
     (Except.error "boom") (by decide)⟩

/-- A storage with nothing persisted under any key. -/
def emptyStorage : Storage := ⟨none, none, fun _ => none⟩

/-- The boot state of the C3 scenario: no conversations, the default
greeting log, root URL, empty storage. -/
def c3Start : AppState := ⟨initConvState, chatStart, none, emptyStorage⟩

/-- The C3 scenario run: `SendFirstMessage("Hello")` with a successful
responder. -/
def c3After : AppState :=
  handleSendMessage c3Start "Hello" "conv_1" "t1" "t2" (Except.ok "reply")

/-- C3 counterexample: `SendFirstMessage("Hello")` from an empty session
does create exactly one conversation titled `"Hello"`, but the settled
message log contains no user message at all (the refired load effect
reset the log to the default assistant greeting, id 1, before the
responder settled), the settled assistant reply has id 2 computed from
the pre-send snapshot, and the registry entry keeps `messageCount = 1`
(not 2) because the completion callback is guarded by the conversation
id captured at send time, which was still null. -/
theorem C3_counterexample :
    c3After.conv.conversations.map (·.title) = ["Hello"]
    ∧ c3After.conv.conversations.map (·.messageCount) = [1]
    ∧ c3After.chat.messages.map (·.id) = [1, 2]
    ∧ c3After.chat.messages.map (·.sender) = ["ai", "ai"]
    ∧ ¬ (∃ m ∈ c3After.chat.messages, m.sender = "user")
    ∧ ¬ (c3After.conv.conversations.map (·.messageCount) = [2]) := by
  decide

/-- C3 amended: from a session with no conversations and a storage with
nothing under the (fresh, non-empty) new conversation id,
`SendFirstMessage("Hello")` yields exactly one conversation with title
`"Hello"` and `messageCount = 1`, the URL pointing at it.  The user
message (id 2) is appended only transiently: navigating to the new
conversation refires the message-load effect, which resets the log to
the default assistant greeting (id 1) before the responder settles, so
the settled log is the default greeting followed by the assistant reply
with id 2 (computed from the pre-send snapshot) — no user message —
with the typing flag cleared and no error set; that settled log is also
what ends up persisted under the new id. -/
theorem C3_send_first_message (reply newId now resetNow t0 : String) (st : Storage)
    (hfresh : st.messagesFor newId = none) (hid : newId ≠ "") :
    (handleSendMessage ⟨initConvState, ⟨defaultInitialMessages t0, false, none⟩, none, st⟩
        "Hello" newId now resetNow (Except.ok reply)).conv
      = ⟨[⟨newId, "Hello", "Hello", now, now, 1⟩], some newId⟩
    ∧ (handleSendMessage ⟨initConvState, ⟨defaultInitialMessages t0, false, none⟩, none, st⟩
        "Hello" newId now resetNow (Except.ok reply)).chat
      = ⟨defaultInitialMessages resetNow ++ [createMessage 2 reply "ai" now], false, none⟩
    ∧ (handleSendMessage ⟨initConvState, ⟨defaultInitialMessages t0, false, none⟩, none, st⟩
        "Hello" newId now resetNow (Except.ok reply)).url = some newId
    ∧ (handleSendMessage ⟨initConvState, ⟨defaultInitialMessages t0, false, none⟩, none, st⟩
        "Hello" newId now resetNow (Except.ok reply)).storage.messagesFor newId
      = some (encodeMessages
          (defaultInitialMessages resetNow ++ [createMessage 2 reply "ai" now])) := by
  have hjt : jsTrim "Hello" = "Hello" := by decide
  have htitle : generateConversationTitle "Hello" = "Hello" := by decide
  have hnext : getNextMessageId (defaultInitialMessages t0) = 2 := rfl
  have hreset : loadMessagesEffect st newId resetNow = defaultInitialMessages resetNow := by
    simp [loadMessagesEffect, hfresh]
  refine ⟨?_, ?_, ?_, ?_⟩ <;>
    simp [handleSendMessage, createNewConversation, initConvState, hjt, htitle,
      hnext, hreset, saveMessagesEffect, hid]

/-- C3 witness: the amended scenario at the concrete fresh id
`"conv_1"` over the empty storage. -/
theorem C3_witness :
    ((emptyStorage.messagesFor "conv_1" = none) ∧ ("conv_1" : String) ≠ "")
    ∧ ((handleSendMessage ⟨initConvState, ⟨defaultInitialMessages "t0", false, none⟩, none,
          emptyStorage⟩ "Hello" "conv_1" "t1" "t2" (Except.ok "reply")).conv
        = ⟨[⟨"conv_1", "Hello", "Hello", "t1", "t1", 1⟩], some "conv_1"⟩
       ∧ (handleSendMessage ⟨initConvState, ⟨defaultInitialMessages "t0", false, none⟩, none,
          emptyStorage⟩ "Hello" "conv_1" "t1" "t2" (Except.ok "reply")).chat
        = ⟨defaultInitialMessages "t2" ++ [createMessage 2 "reply" "ai" "t1"], false, none⟩
       ∧ (handleSendMessage ⟨initConvState, ⟨defaultInitialMessages "t0", false, none⟩, none,
          emptyStorage⟩ "Hello" "conv_1" "t1" "t2" (Except.ok "reply")).url = some "conv_1"
       ∧ (handleSendMessage ⟨initConvState, ⟨defaultInitialMessages "t0", false, none⟩, none,
          emptyStorage⟩ "Hello" "conv_1" "t1" "t2" (Except.ok "reply")).storage.messagesFor "conv_1"
        = some (encodeMessages
            (defaultInitialMessages "t2" ++ [createMessage 2 "reply" "ai" "t1"]))) :=
  ⟨⟨rfl, by decide⟩,
   C3_send_first_message "reply" "conv_1" "t1" "t2" "t0" emptyStorage rfl (by decide)⟩

/-! ## Whitespace-normalization lemmas for C7 -/

theorem collapseChars_cons_of_not_ws {c : Char} (l : List Char) (h : isJsWs c = false) :
    collapseChars (c :: l) = c :: collapseChars l := by
  cases l with
  | nil => simp [collapseChars, h]
  | cons d t => simp [collapseChars, h]

theorem collapseChars_cons_cons_of_ws {c d : Char} (t : List Char)
    (hc : isJsWs c = true) (hd : isJsWs d = true) :
    collapseChars (c :: d :: t) = collapseChars (d :: t) := by
  simp [collapseChars, hc, hd]

theorem collapseChars_cons_cons_of_ws_not_ws {c d : Char} (t : List Char)
    (hc : isJsWs c = true) (hd : isJsWs d = false) :
    collapseChars (c :: d :: t) = ' ' :: collapseChars (d :: t) := by
  simp [collapseChars, hc, hd]

/-- `collapseChars` commutes with dropping the leading whitespace run. -/
theorem collapseChars_dropWhile (l : List Char) :
    collapseChars (l.dropWhile isJsWs) = (collapseChars l).dropWhile isJsWs := by
  induction l with
  | nil => rfl
  | cons c rest ih =>
    by_cases hc : isJsWs c
    · rw [List.dropWhile_cons_of_pos hc]
      cases rest with
      | nil =>
        show ([] : List Char) = List.dropWhile isJsWs [if isJsWs c then ' ' else c]
        rw [hc]
        show ([] : List Char) = List.dropWhile isJsWs [' ']
        decide
      | cons d t =>
        by_cases hd : isJsWs d
        · rw [ih, collapseChars_cons_cons_of_ws t hc hd]
        · rw [List.dropWhile_cons_of_neg (by simp [hd]),
            collapseChars_cons_cons_of_ws_not_ws t hc (by simp [hd]),
            List.dropWhile_cons_of_pos (by decide),
            collapseChars_cons_of_not_ws t (by simp [hd]),
            List.dropWhile_cons_of_neg (by simp [hd])]
    · rw [List.dropWhile_cons_of_neg hc,
        collapseChars_cons_of_not_ws rest (by simp [hc]),
        List.dropWhile_cons_of_neg hc]

/-- Whether a character list ends in whitespace. -/
def lastIsWs (l : List Char) : Bool :=
  match l.getLast? with
  | some d => isJsWs d
  | none => false

theorem lastIsWs_cons_cons (a b : Char) (t : List Char) :
    lastIsWs (a :: b :: t) = lastIsWs (b :: t) := by
  unfold lastIsWs
  rw [List.getLast?_cons_cons]

/-- How `collapseChars` treats one appended character: a whitespace
character appended to a list already ending in whitespace is absorbed,
anything else is appended (whitespace as a single space). -/
theorem collapseChars_append_singleton (l : List Char) (c : Char) :
    collapseChars (l ++ [c]) =
      if lastIsWs l && isJsWs c then collapseChars l
      else collapseChars l ++ [if isJsWs c then ' ' else c] := by
  induction l with
  | nil =>
    simp [lastIsWs, collapseChars]
  | cons a rest ih =>
    cases rest with
    | nil =>
      by_cases ha : isJsWs a <;> by_cases hc : isJsWs c <;>
        simp [collapseChars, lastIsWs, ha, hc]
    | cons b t =>
      have hgoal : (a :: b :: t) ++ [c] = a :: b :: (t ++ [c]) := rfl
      rw [hgoal, lastIsWs_cons_cons]
      by_cases hab : isJsWs a && isJsWs b
      · have ha := (Bool.and_eq_true_iff.mp hab).1
        have hb := (Bool.and_eq_true_iff.mp hab).2
        rw [collapseChars_cons_cons_of_ws (t ++ [c]) ha hb,
            collapseChars_cons_cons_of_ws t ha hb]
        have hbt : (b :: t) ++ [c] = b :: (t ++ [c]) := rfl
        rw [← hbt]
        exact ih
      · have hsplit : collapseChars (a :: b :: (t ++ [c]))
            = (if isJsWs a then ' ' else a) :: collapseChars (b :: (t ++ [c])) := by
          simp [collapseChars, hab]
        have hsplit2 : collapseChars (a :: b :: t)
            = (if isJsWs a then ' ' else a) :: collapseChars (b :: t) := by
          simp [collapseChars, hab]
        have hbt : collapseChars (b :: (t ++ [c])) = collapseChars ((b :: t) ++ [c]) := rfl
        rw [hsplit, hbt, ih, hsplit2]
        by_cases hlc : lastIsWs (b :: t) && isJsWs c <;> simp [hlc]

/-- Whether a character list starts with whitespace. -/
def headIsWs (l : List Char) : Bool :=
  match l.head? with
  | some d => isJsWs d
  | none => false

theorem lastIsWs_reverse (l : List Char) : lastIsWs l.reverse = headIsWs l := by
  unfold lastIsWs headIsWs
  rw [List.getLast?_reverse]

/-- `collapseChars` commutes with list reversal: collapsing whitespace
runs is direction-independent. -/
theorem collapseChars_reverse (l : List Char) :
    collapseChars l.reverse = (collapseChars l).reverse := by
  induction l with
  | nil => rfl
  | cons c rest ih =>
    rw [List.reverse_cons, collapseChars_append_singleton, lastIsWs_reverse]
    cases rest with
    | nil =>
      simp [collapseChars, headIsWs]
    | cons d t =>
      have hhead : headIsWs (d :: t) = isJsWs d := rfl
      rw [hhead]
      by_cases hd : isJsWs d <;> by_cases hc : isJsWs c
      · rw [if_pos (by simp [hd, hc]), ih, collapseChars_cons_cons_of_ws t hc hd]
      · have hsplit : collapseChars (c :: d :: t)
            = (if isJsWs c then ' ' else c) :: collapseChars (d :: t) := by
          simp [collapseChars, hc]
        rw [if_neg (by simp [hc]), ih, hsplit, List.reverse_cons]
      · have hsplit : collapseChars (c :: d :: t)
            = (if isJsWs c then ' ' else c) :: collapseChars (d :: t) := by
          simp [collapseChars, hd]
        rw [if_neg (by simp [hd]), ih, hsplit, List.reverse_cons]
      · have hsplit : collapseChars (c :: d :: t)
            = (if isJsWs c then ' ' else c) :: collapseChars (d :: t) := by
          simp [collapseChars, hc]
        rw [if_neg (by simp [hc]), ih, hsplit, List.reverse_cons]

/-- Trimming then collapsing whitespace equals collapsing then trimming. -/
theorem collapseChars_trimChars (l : List Char) :
    collapseChars (trimChars l) = trimChars (collapseChars l) := by
  unfold trimChars
  rw [collapseChars_reverse, collapseChars_dropWhile, collapseChars_reverse,
    collapseChars_dropWhile]

theorem jsCollapseWs_jsTrim (s : String) :
    jsCollapseWs (jsTrim s) = jsTrim (jsCollapseWs s) := by
  show String.mk (collapseChars (trimChars s.data))
      = String.mk (trimChars (collapseChars s.data))
  exact congrArg String.mk (collapseChars_trimChars s.data)

/-- The claim's literal reading of title derivation: the first 50
characters of the seed with whitespace collapsed to single spaces, an
ellipsis when truncated, and the literal `"New conversation"` when no
seed is given. -/
def claimedTitle : Option String → String
  | none => "New conversation"
  | some s => jsCollapseWs (strTake s 50) ++ (if 50 < jsLength s then "..." else "")

/-- The amended title derivation: like `claimedTitle` but the prefix is
additionally trimmed of leading/trailing whitespace (stated here with
the normalization in the opposite composition order from the code), an
empty seed counts as no seed, and a title that normalizes to the empty
string falls back to the literal `"New conversation"`. -/
def amendedTitle : Option String → String
  | none => "New conversation"
  | some s =>
      if s = "" then "New conversation"
      else
        let core := jsTrim (jsCollapseWs (strTake s 50))
        let t := core ++ (if 50 < jsLength s then "..." else "")
        if t = "" then "New conversation" else t

theorem generateConversationTitle_eq_amended (s : String) (hs : s ≠ "") :
    generateConversationTitle s = amendedTitle (some s) := by
  simp only [generateConversationTitle, amendedTitle, if_neg hs,
    jsCollapseWs_jsTrim]
  by_cases hlen : 50 < jsLength s <;> simp [hlen]

/-- A 55-character seed containing a double space. -/
def seed55 : String := "Hello  world this is a very long seed message for title"

/-- C7 counterexample: for the whitespace-only seed `" "`, `create`
produces the title `"New conversation"`, while the claim's literal
derivation (whitespace collapsed to single spaces, no ellipsis since not
truncated) yields `" "`. -/
theorem C7_counterexample :
    ((createNewConversation initConvState "c1" "t" (some " ")).1.conversations.map (·.title))
        = ["New conversation"]
    ∧ claimedTitle (some " ") = " "
    ∧ ("New conversation" : String) ≠ " " := by
  decide

/-- C7 amended: the title of a created conversation is the first 50
characters of the seed with whitespace runs collapsed to single spaces
and leading/trailing whitespace removed, `"..."` appended when the seed
exceeded 50 characters, falling back to the literal
`"New conversation"` when there is no seed, an empty seed, or a
normalization result that is empty; in particular the concrete
55-character seed `seed55` yields its whitespace-collapsed first 50
characters followed by `"..."`. -/
theorem C7_title_derivation (st : ConvState) (newId now : String) (seed : Option String) :
    ((createNewConversation st newId now seed).1.conversations.head?.map (·.title))
        = some (amendedTitle seed)
    ∧ generateConversationTitle seed55
        = "Hello world this is a very long seed message for..." := by
  refine ⟨?_, by decide⟩
  cases seed with
  | none => rfl
  | some s =>
    by_cases hs : s = ""
    · subst hs; rfl
    · show some (if s = "" then "New conversation" else generateConversationTitle s)
          = some (amendedTitle (some s))
      rw [if_neg hs, generateConversationTitle_eq_amended s hs]
